import Mathlib

/-!
Shallow embedding of the doogie crate (src/src/lib.rs, src/src/errors.rs):
a Rust wrapper around the libcmark CommonMark engine.

The external engine (libcmark) is opaque to the wrapper; every engine
primitive the wrapper calls is therefore a parameter of the embedded
operation (a pure function describing what the engine returns for that
call).  Handles (`*mut CMarkNodePtr`) are embedded as `Nat`, with `0`
playing the role of the null pointer.  The mutable bookkeeping state —
the `roots` vector of every live `ResourceManager` — is embedded as an
explicit `MemState` value threaded through the operations; a manager is
identified by its index in that state, and a fresh `Rc::new(ResourceManager::new())`
appends a new empty roots vector.
-/

/-- Error type of the crate, from src/src/errors.rs (`DoogieError`), plus the
`NodeNone` variant that `Node::from_raw` in src/src/lib.rs constructs.
Payloads that carry foreign error structs (`NulError`, `Utf8Error`, `IOError`)
are embedded without payload; the numeric payloads are kept. -/
inductive DoogieError where
  | nulError : DoogieError
  | utf8Error : DoogieError
  | returnCode : Nat → DoogieError
  | badEnum : Nat → DoogieError
  | ioError : DoogieError
  | resourceUnavailable : DoogieError
  | nodeNone : DoogieError
deriving DecidableEq, Repr

/-- Modelled from the spec: `constants.rs` (declared as `pub mod constants;` in
src/src/lib.rs) is not under src/.  The spec's Type Registry is a "closed
enumeration of 20 variants (Document, BlockQuote, List, Item, CodeBlock,
HtmlBlock, CustomBlock, Paragraph, Heading, ThematicBreak, Text, SoftBreak,
LineBreak, Code, HtmlInline, CustomInline, Emph, Strong, Link, Image)".
These are the twenty usable node kinds; the engine's extra "none" kind is
represented separately (see `NodeType`). -/
inductive NodeKind where
  | document | blockQuote | list | item | codeBlock
  | htmlBlock | customBlock | paragraph | heading | thematicBreak
  | text | softBreak | lineBreak | code | htmlInline
  | customInline | emph | strong | link | image
deriving DecidableEq, Repr

/-- Modelled from the spec: the numeric codes of the missing `constants.rs`
NodeType enumeration.  The tests in src/src/lib.rs recover the twenty kinds
via `NodeType::try_from(i)` for `i` in `1..21`, in the spec's §3 listing
order, and `from_raw` classifies code 0 as the explicit "none" kind. -/
def NodeKind.codeOf : NodeKind → Nat
  | .document => 1
  | .blockQuote => 2
  | .list => 3
  | .item => 4
  | .codeBlock => 5
  | .htmlBlock => 6
  | .customBlock => 7
  | .paragraph => 8
  | .heading => 9
  | .thematicBreak => 10
  | .text => 11
  | .softBreak => 12
  | .lineBreak => 13
  | .code => 14
  | .htmlInline => 15
  | .customInline => 16
  | .emph => 17
  | .strong => 18
  | .link => 19
  | .image => 20

/-- Inverse of `NodeKind.codeOf` on the codes 1..20. -/
def kindOfCode : Nat → Option NodeKind
  | 1 => some .document
  | 2 => some .blockQuote
  | 3 => some .list
  | 4 => some .item
  | 5 => some .codeBlock
  | 6 => some .htmlBlock
  | 7 => some .customBlock
  | 8 => some .paragraph
  | 9 => some .heading
  | 10 => some .thematicBreak
  | 11 => some .text
  | 12 => some .softBreak
  | 13 => some .lineBreak
  | 14 => some .code
  | 15 => some .htmlInline
  | 16 => some .customInline
  | 17 => some .emph
  | 18 => some .strong
  | 19 => some .link
  | 20 => some .image
  | _ => none

/-- The 21-variant engine node-type enumeration (`NodeType` of the missing
`constants.rs`): `none` stands for `CMarkNodeNone`, `some k` for the kind
`k`'s `CMarkNode...` variant. -/
abbrev NodeType := Option NodeKind

/-- Modelled from the spec: `NodeType::try_from(u32)` of the missing
`constants.rs`.  Per the spec's error model (§7), a "non-matching enumeration
value when the engine reports a kind ... outside the known set" yields the
`BadEnum` error; code 0 classifies as the explicit "none" kind. -/
def NodeType.tryFrom (n : Nat) : Except DoogieError NodeType :=
  if n = 0 then .ok none
  else
    match kindOfCode n with
    | some k => .ok (some k)
    | none => .error (.badEnum n)

/-- Modelled from the spec: `IterEventType` of the missing `constants.rs`.
§4.6: each advance yields an "enter" event, an "exit" event, or a terminal
event ("done"/"none"); a code outside the known set is a `BadEnum` error. -/
inductive IterEventType where
  | none | done | enter | exit
deriving DecidableEq, Repr

/-- Modelled from the spec: `IterEventType::try_from(u32)` of the missing
`constants.rs`, over libcmark's event codes. -/
def IterEventType.tryFrom (n : Nat) : Except DoogieError IterEventType :=
  match n with
  | 0 => .ok IterEventType.none
  | 1 => .ok .done
  | 2 => .ok .enter
  | 3 => .ok .exit
  | m => .error (.badEnum m)

/-- The mutable bookkeeping state: one entry per live `ResourceManager`,
holding its `roots: RefCell<Vec<*mut CMarkNodePtr>>` vector.  A manager is
identified by its index. -/
structure MemState where
  managers : List (List Nat)
deriving DecidableEq, Repr

/-- `Rc::new(ResourceManager::new())`: a brand-new manager with an empty
roots vector; returns its identity and the grown state. -/
def MemState.fresh (s : MemState) : Nat × MemState :=
  (s.managers.length, ⟨s.managers ++ [[]]⟩)

/-- The roots vector of manager `m` (empty for a dead or unknown id). -/
def MemState.rootsOf (s : MemState) (m : Nat) : List Nat :=
  s.managers.getD m []

/-- Replace the roots vector of manager `m`. -/
def MemState.setRoots (s : MemState) (m : Nat) (l : List Nat) : MemState :=
  ⟨s.managers.set m l⟩

/-- `ResourceManager::track_root`: push the pointer onto the roots vector
unless it is already present (src/src/lib.rs lines 1138-1143). -/
def ResourceManager.track_root (s : MemState) (m : Nat) (p : Nat) : MemState :=
  let roots := s.rootsOf m
  if roots.contains p then s else s.setRoots m (roots ++ [p])

/-- `ResourceManager::untrack_root`: `Vec::remove_item`, i.e. remove the
first occurrence of the pointer if any (src/src/lib.rs lines 1146-1149). -/
def ResourceManager.untrack_root (s : MemState) (m : Nat) (p : Nat) : MemState :=
  s.setRoots m ((s.rootsOf m).erase p)

/-- `ResourceManager::is_tracking`: membership in the roots vector
(src/src/lib.rs lines 1153-1156). -/
def ResourceManager.is_tracking (s : MemState) (m : Nat) (p : Nat) : Bool :=
  (s.rootsOf m).contains p

/-- A `Node` value: the Rust `Node` is a 20-variant enum, each variant holding
a `Resource { pointer, manager }`; this is embedded as the variant tag plus
the two `Resource` fields. -/
structure Node where
  kind : NodeKind
  pointer : Nat
  manager : Nat
deriving DecidableEq, Repr

/-- `impl PartialEq for Node` (src/src/lib.rs lines 239-243): equality
compares the raw pointers only. -/
def Node.eq_impl (self other : Node) : Bool :=
  self.pointer == other.pointer

/-- `Node::from_raw` (src/src/lib.rs lines 259-294): build a `Resource` with
the pointer and a brand-new manager, classify the engine-reported kind via
`NodeType::try_from` (propagating `BadEnum`), return the `NodeNone` error on
the explicit "none" kind, and otherwise wrap into the matching variant.  On
the error paths the transient manager is dropped with an empty roots vector
(freeing nothing), so the state is returned unchanged there. -/
def Node.from_raw (getType : Nat → Nat) (p : Nat) (s : MemState) :
    Except DoogieError Node × MemState :=
  let fresh := s.fresh
  match NodeType.tryFrom (getType p) with
  | .error e => (.error e, s)
  | .ok none => (.error .nodeNone, s)
  | .ok (some k) => (.ok ⟨k, p, fresh.1⟩, fresh.2)

/-- `Node::from_type` (src/src/lib.rs lines 297-303): `cmark_node_new` on the
raw type code, then `Node::from_raw` on the returned pointer. -/
def Node.from_type (node_new : NodeType → Nat) (getType : Nat → Nat)
    (t : NodeType) (s : MemState) : Except DoogieError Node × MemState :=
  Node.from_raw getType (node_new t) s

/-- `parse_document` (src/src/lib.rs lines 135-152): create one fresh
manager, call the engine's parse over the raw bytes, track the returned root
pointer in that manager, and wrap it as a `Document` node. -/
def parse_document (parse : List Nat → Nat) (buffer : List Nat) (s : MemState) :
    Node × MemState :=
  let fresh := s.fresh
  let root_ptr := parse buffer
  let s2 := ResourceManager.track_root fresh.2 fresh.1 root_ptr
  (⟨NodeKind.document, root_ptr, fresh.1⟩, s2)

/-- `Node::get_cmark_type` (src/src/lib.rs lines 306-312):
`NodeType::try_from(cmark_node_get_type(ptr) as u32)?`. -/
def Node.get_cmark_type (getType : Nat → Nat) (self : Node) :
    Except DoogieError NodeType :=
  NodeType.tryFrom (getType self.pointer)

/-- `Node::next_sibling` (src/src/lib.rs lines 335-346): call the engine's
`cmark_node_next`; a null pointer is the successful absent outcome, a
non-null pointer is wrapped via `from_raw` with its error propagated. -/
def Node.next_sibling (next : Nat → Nat) (getType : Nat → Nat) (self : Node)
    (s : MemState) : Except DoogieError (Option Node) × MemState :=
  let p := next self.pointer
  if p = 0 then (.ok none, s)
  else
    match Node.from_raw getType p s with
    | (.ok n, s') => (.ok (some n), s')
    | (.error e, _) => (.error e, s)

/-- `Node::prev_sibling` (src/src/lib.rs lines 349-360), as `next_sibling`
over `cmark_node_previous`. -/
def Node.prev_sibling (previous : Nat → Nat) (getType : Nat → Nat) (self : Node)
    (s : MemState) : Except DoogieError (Option Node) × MemState :=
  let p := previous self.pointer
  if p = 0 then (.ok none, s)
  else
    match Node.from_raw getType p s with
    | (.ok n, s') => (.ok (some n), s')
    | (.error e, _) => (.error e, s)

/-- `Node::parent` (src/src/lib.rs lines 363-374), over `cmark_node_parent`. -/
def Node.parent (parentOf : Nat → Nat) (getType : Nat → Nat) (self : Node)
    (s : MemState) : Except DoogieError (Option Node) × MemState :=
  let p := parentOf self.pointer
  if p = 0 then (.ok none, s)
  else
    match Node.from_raw getType p s with
    | (.ok n, s') => (.ok (some n), s')
    | (.error e, _) => (.error e, s)

/-- `Node::first_child` (src/src/lib.rs lines 377-388), over
`cmark_node_first_child`. -/
def Node.first_child (firstChildOf : Nat → Nat) (getType : Nat → Nat)
    (self : Node) (s : MemState) : Except DoogieError (Option Node) × MemState :=
  let p := firstChildOf self.pointer
  if p = 0 then (.ok none, s)
  else
    match Node.from_raw getType p s with
    | (.ok n, s') => (.ok (some n), s')
    | (.error e, _) => (.error e, s)

/-- `Node::last_child` (src/src/lib.rs lines 391-402), over
`cmark_node_last_child`. -/
def Node.last_child (lastChildOf : Nat → Nat) (getType : Nat → Nat)
    (self : Node) (s : MemState) : Except DoogieError (Option Node) × MemState :=
  let p := lastChildOf self.pointer
  if p = 0 then (.ok none, s)
  else
    match Node.from_raw getType p s with
    | (.ok n, s') => (.ok (some n), s')
    | (.error e, _) => (.error e, s)

/-- `Node::itself` (src/src/lib.rs lines 407-409):
`Ok(Node::from_raw(self.pointer())?)`. -/
def Node.itself (getType : Nat → Nat) (self : Node) (s : MemState) :
    Except DoogieError Node × MemState :=
  Node.from_raw getType self.pointer s

/-- `Node::unlink` (src/src/lib.rs lines 415-420): `cmark_node_unlink` (an
engine-side detach, outside the bookkeeping state) followed by
`self.manager().track_root(&self.pointer())`. -/
def Node.unlink (self : Node) (s : MemState) : MemState :=
  ResourceManager.track_root s self.manager self.pointer

/-- The `i as u32` cast applied to the engine's append status. -/
def u32_of_i32 (i : Int) : Nat :=
  (i % 4294967296).toNat

/-- `Node::append_child` (src/src/lib.rs lines 428-442): unlink the child
(tracking it in its own manager), call the engine's append primitive; on
status 1 untrack the child in its manager and return `Ok(())`; on any other
status return `Err(ReturnCode(i as u32))`.  `append_status` is the raw
status the engine returns for this call. -/
def Node.append_child (append_status : Int) (self child : Node)
    (s : MemState) : Except DoogieError Unit × MemState :=
  let s1 := Node.unlink child s
  if append_status = 1 then
    (.ok (), ResourceManager.untrack_root s1 child.manager child.pointer)
  else
    (.error (.returnCode (u32_of_i32 append_status)), s1)

/-- `Node::can_append_child` (src/src/lib.rs lines 445-472): classify the
child's engine-reported kind via `get_cmark_type` (propagating its error),
then dispatch on the parent's variant: the `List` arm compares the child
type against `CMarkNodeItem` directly; every other arm is a membership test
in that kind's allowed-children table.  The tables (`DOCUMENT_CHILDREN`,
`BLOCK_QUOTE_CHILDREN`, ...) live in the missing `constants.rs`, so they are
a parameter `tables` here; the spec fixes only some of their contents (§4.5),
and the claims proved below hold for every table assignment. -/
def Node.can_append_child (tables : NodeKind → List NodeType)
    (getType : Nat → Nat) (self child : Node) : Except DoogieError Bool :=
  match Node.get_cmark_type getType child with
  | .error e => .error e
  | .ok child_type =>
    .ok (match self.kind with
      | .document => (tables .document).contains child_type
      | .blockQuote => (tables .blockQuote).contains child_type
      | .list => child_type == some NodeKind.item
      | .item => (tables .item).contains child_type
      | .codeBlock => (tables .codeBlock).contains child_type
      | .htmlBlock => (tables .htmlBlock).contains child_type
      | .customBlock => (tables .customBlock).contains child_type
      | .paragraph => (tables .paragraph).contains child_type
      | .heading => (tables .heading).contains child_type
      | .thematicBreak => (tables .thematicBreak).contains child_type
      | .text => (tables .text).contains child_type
      | .softBreak => (tables .softBreak).contains child_type
      | .lineBreak => (tables .lineBreak).contains child_type
      | .code => (tables .code).contains child_type
      | .htmlInline => (tables .htmlInline).contains child_type
      | .customInline => (tables .customInline).contains child_type
      | .emph => (tables .emph).contains child_type
      | .strong => (tables .strong).contains child_type
      | .link => (tables .link).contains child_type
      | .image => (tables .image).contains child_type)

/-- `NodeIterator::next` (src/src/lib.rs lines 1077-1100): classify the raw
event code from `cmark_iter_next`; `Done` and `None` end the sequence; an
unclassifiable code ends the sequence; otherwise wrap the cursor's current
node via `from_raw`, ending the sequence (after logging) if that fails.
`iter_next_code` is the raw code the engine returns for this advance and
`iter_node` the handle `cmark_iter_get_node` returns. -/
def NodeIterator.next (iter_next_code : Nat) (iter_node : Nat)
    (getType : Nat → Nat) (s : MemState) :
    Option (Node × IterEventType) × MemState :=
  match IterEventType.tryFrom iter_next_code with
  | .ok .done => (none, s)
  | .ok IterEventType.none => (none, s)
  | .ok ev =>
    match Node.from_raw getType iter_node s with
    | (.ok node, s') => (some (node, ev), s')
    | (.error _, _) => (none, s)
  | .error _ => (none, s)

/-- `Text::get_content` (src/src/lib.rs lines 775-788): a null literal
pointer from `cmark_node_get_literal` yields `Ok(String::new())`; otherwise
the bytes are decoded, with a failed UTF-8 decode surfaced as an error.
`get_literal` models the engine's literal lookup (`none` is the null
pointer) and `decode` models `CStr::to_str` (`none` is a `Utf8Error`). -/
def Text.get_content (get_literal : Nat → Option (List Nat))
    (decode : List Nat → Option String) (self : Node) :
    Except DoogieError String :=
  match get_literal self.pointer with
  | none => .ok ""
  | some bytes =>
    match decode bytes with
    | some str => .ok str
    | none => .error .utf8Error

/-- `CodeBlock::get_content` (src/src/lib.rs lines 638-651), identical in
body to `Text::get_content`. -/
def CodeBlock.get_content (get_literal : Nat → Option (List Nat))
    (decode : List Nat → Option String) (self : Node) :
    Except DoogieError String :=
  match get_literal self.pointer with
  | none => .ok ""
  | some bytes =>
    match decode bytes with
    | some str => .ok str
    | none => .error .utf8Error

/-- `Code::get_content` (src/src/lib.rs lines 856-869), identical in body to
`Text::get_content`. -/
def Code.get_content (get_literal : Nat → Option (List Nat))
    (decode : List Nat → Option String) (self : Node) :
    Except DoogieError String :=
  match get_literal self.pointer with
  | none => .ok ""
  | some bytes =>
    match decode bytes with
    | some str => .ok str
    | none => .error .utf8Error

/-! ## Bookkeeping lemmas -/

theorem MemState.length_setRoots (s : MemState) (m : Nat) (l : List Nat) :
    (s.setRoots m l).managers.length = s.managers.length := by
  simp [MemState.setRoots]

theorem MemState.rootsOf_setRoots_self (s : MemState) (m : Nat) (l : List Nat)
    (h : m < s.managers.length) : (s.setRoots m l).rootsOf m = l := by
  simp [MemState.setRoots, MemState.rootsOf, List.getD_eq_getElem?_getD,
    List.getElem?_set_self, h]

theorem MemState.rootsOf_fresh (s : MemState) :
    (s.fresh).2.rootsOf (s.fresh).1 = [] := by
  simp [MemState.fresh, MemState.rootsOf, List.getD_eq_getElem?_getD]

theorem ResourceManager.length_track_root (s : MemState) (m p : Nat) :
    (ResourceManager.track_root s m p).managers.length = s.managers.length := by
  by_cases hc : p ∈ s.rootsOf m <;>
    simp [ResourceManager.track_root, hc, MemState.setRoots]

theorem ResourceManager.is_tracking_track_root_self (s : MemState) (m p : Nat)
    (h : m < s.managers.length) :
    ResourceManager.is_tracking (ResourceManager.track_root s m p) m p = true := by
  by_cases hc : p ∈ s.rootsOf m
  · simp [ResourceManager.track_root, ResourceManager.is_tracking, hc,
      List.elem_iff]
  · have ht : ResourceManager.track_root s m p
        = s.setRoots m (s.rootsOf m ++ [p]) := by
      simp [ResourceManager.track_root, hc]
    rw [ht, ResourceManager.is_tracking, s.rootsOf_setRoots_self m _ h]
    simp [List.elem_iff]

theorem ResourceManager.untrack_after_track (s : MemState) (m p : Nat)
    (h : m < s.managers.length) (hnd : (s.rootsOf m).Nodup) :
    ResourceManager.is_tracking
      (ResourceManager.untrack_root (ResourceManager.track_root s m p) m p) m p
      = false := by
  by_cases hc : p ∈ s.rootsOf m
  · have ht : ResourceManager.track_root s m p = s := by
      simp [ResourceManager.track_root, hc]
    rw [ht, ResourceManager.untrack_root, ResourceManager.is_tracking]
    rw [MemState.rootsOf_setRoots_self _ _ _ h, Bool.eq_false_iff]
    intro hmem
    have hm := List.elem_iff.mp hmem
    exact absurd ((List.Nodup.mem_erase_iff hnd).mp hm).1 (by simp)
  · have ht : ResourceManager.track_root s m p
        = s.setRoots m (s.rootsOf m ++ [p]) := by
      simp [ResourceManager.track_root, hc]
    rw [ht, ResourceManager.untrack_root, ResourceManager.is_tracking]
    have hlen : m < (s.setRoots m (s.rootsOf m ++ [p])).managers.length := by
      rw [s.length_setRoots]; exact h
    rw [MemState.rootsOf_setRoots_self _ _ _ hlen]
    rw [MemState.rootsOf_setRoots_self _ _ _ h]
    rw [List.erase_append_right _ hc]
    simp [List.elem_iff, hc]

theorem Node.from_raw_ok (getType : Nat → Nat) (p : Nat) (s : MemState)
    (n : Node) (s' : MemState) (h : Node.from_raw getType p s = (.ok n, s')) :
    n.pointer = p ∧ n.manager = s.managers.length
    ∧ s' = ⟨s.managers ++ [[]]⟩ := by
  unfold Node.from_raw at h
  cases htf : NodeType.tryFrom (getType p) with
  | error e => rw [htf] at h; simp at h
  | ok t =>
    rw [htf] at h
    cases t with
    | none => simp at h
    | some k =>
      simp only [MemState.fresh, Prod.mk.injEq, Except.ok.injEq] at h
      obtain ⟨hn, hs⟩ := h
      subst hn
      exact ⟨rfl, rfl, hs.symm⟩

/-! ## Claim theorems -/

/-- C1 counterexample: parsing produces a root governed by manager 0, yet the
node reached from it by `first_child` is wrapped, via `from_raw`, in the
brand-new manager 1 — navigation does NOT share the root's Resource Manager,
contradicting the claim. -/
theorem C1_counterexample :
    (parse_document (fun _ => 1) [] ⟨[]⟩).1 = ⟨NodeKind.document, 1, 0⟩
    ∧ (parse_document (fun _ => 1) [] ⟨[]⟩).2 = ⟨[[1]]⟩
    ∧ (Node.first_child (fun _ => 2) (fun q => if q = 1 then 1 else 8)
        ⟨NodeKind.document, 1, 0⟩ ⟨[[1]]⟩).1
      = .ok (some ⟨NodeKind.paragraph, 2, 1⟩)
    ∧ (⟨NodeKind.paragraph, 2, 1⟩ : Node).manager
        ≠ (⟨NodeKind.document, 1, 0⟩ : Node).manager :=
  ⟨rfl, rfl, rfl, by decide⟩

/-- C1 (amended): every Node obtained by one navigation step (`next_sibling`,
`prev_sibling`, `parent`, `first_child`, `last_child`) from a node of a live
tree is wrapped by `from_raw` in a brand-new Resource Manager, so its manager
reference is DISTINCT from that of the node it was reached from. -/
theorem C1_navigation_fresh_manager (eng getType : Nat → Nat) (self c : Node)
    (s s' : MemState) (hm : self.manager < s.managers.length) :
    (Node.next_sibling eng getType self s = (.ok (some c), s') →
      c.manager ≠ self.manager)
    ∧ (Node.prev_sibling eng getType self s = (.ok (some c), s') →
      c.manager ≠ self.manager)
    ∧ (Node.parent eng getType self s = (.ok (some c), s') →
      c.manager ≠ self.manager)
    ∧ (Node.first_child eng getType self s = (.ok (some c), s') →
      c.manager ≠ self.manager)
    ∧ (Node.last_child eng getType self s = (.ok (some c), s') →
      c.manager ≠ self.manager) := by
  refine ⟨?_, ?_, ?_, ?_, ?_⟩ <;> intro h
  · simp only [Node.next_sibling] at h
    split at h
    · simp at h
    · split at h
      · rename_i n s2 heq
        simp only [Prod.mk.injEq, Except.ok.injEq, Option.some.injEq] at h
        obtain ⟨hc, -⟩ := h
        obtain ⟨-, hman, -⟩ := Node.from_raw_ok _ _ _ _ _ heq
        subst hc
        omega
      · simp at h
  · simp only [Node.prev_sibling] at h
    split at h
    · simp at h
    · split at h
      · rename_i n s2 heq
        simp only [Prod.mk.injEq, Except.ok.injEq, Option.some.injEq] at h
        obtain ⟨hc, -⟩ := h
        obtain ⟨-, hman, -⟩ := Node.from_raw_ok _ _ _ _ _ heq
        subst hc
        omega
      · simp at h
  · simp only [Node.parent] at h
    split at h
    · simp at h
    · split at h
      · rename_i n s2 heq
        simp only [Prod.mk.injEq, Except.ok.injEq, Option.some.injEq] at h
        obtain ⟨hc, -⟩ := h
        obtain ⟨-, hman, -⟩ := Node.from_raw_ok _ _ _ _ _ heq
        subst hc
        omega
      · simp at h
  · simp only [Node.first_child] at h
    split at h
    · simp at h
    · split at h
      · rename_i n s2 heq
        simp only [Prod.mk.injEq, Except.ok.injEq, Option.some.injEq] at h
        obtain ⟨hc, -⟩ := h
        obtain ⟨-, hman, -⟩ := Node.from_raw_ok _ _ _ _ _ heq
        subst hc
        omega
      · simp at h
  · simp only [Node.last_child] at h
    split at h
    · simp at h
    · split at h
      · rename_i n s2 heq
        simp only [Prod.mk.injEq, Except.ok.injEq, Option.some.injEq] at h
        obtain ⟨hc, -⟩ := h
        obtain ⟨-, hman, -⟩ := Node.from_raw_ok _ _ _ _ _ heq
        subst hc
        omega
      · simp at h

/-- Witness for C1 (amended) at a concrete navigation step. -/
theorem C1_navigation_fresh_manager_witness :
    (0 : Nat) < 1
    ∧ (Node.first_child (fun _ => 2) (fun q => if q = 1 then 1 else 8)
          ⟨NodeKind.document, 1, 0⟩ ⟨[[1]]⟩
        = (.ok (some ⟨NodeKind.paragraph, 2, 1⟩), ⟨[[1], []]⟩) →
      (⟨NodeKind.paragraph, 2, 1⟩ : Node).manager
        ≠ (⟨NodeKind.document, 1, 0⟩ : Node).manager) :=
  ⟨by decide,
    (C1_navigation_fresh_manager (fun _ => 2) (fun q => if q = 1 then 1 else 8)
      ⟨NodeKind.document, 1, 0⟩ ⟨NodeKind.paragraph, 2, 1⟩ ⟨[[1]]⟩
      ⟨[[1], []]⟩ (by decide)).2.2.2.1⟩

/-- C2 counterexample: `from_type` succeeds on a Document allocation, yet the
new handle is NOT a member of its brand-new manager's tracked-root set
(`from_type` delegates to `from_raw`, which never tracks), contradicting the
claim. -/
theorem C2_counterexample :
    Node.from_type (fun _ => 1) (fun _ => 1) (some NodeKind.document) ⟨[]⟩
      = (.ok ⟨NodeKind.document, 1, 0⟩, ⟨[[]]⟩)
    ∧ ResourceManager.is_tracking ⟨[[]]⟩ 0 1 = false :=
  ⟨rfl, rfl⟩

/-- C2 (amended): for every node kind, a successful `from_type(kind)`
allocates a bare node via the engine and wraps it, via `from_raw`, with a
brand-new Resource Manager whose tracked-root set is EMPTY — the new handle
is not tracked as a root. -/
theorem C2_from_type_untracked (node_new : NodeType → Nat) (getType : Nat → Nat)
    (t : NodeType) (s : MemState) (n : Node) (s' : MemState)
    (h : Node.from_type node_new getType t s = (.ok n, s')) :
    n.pointer = node_new t ∧ n.manager = s.managers.length
    ∧ s'.rootsOf n.manager = []
    ∧ ResourceManager.is_tracking s' n.manager n.pointer = false := by
  unfold Node.from_type at h
  obtain ⟨hp, hman, hs⟩ := Node.from_raw_ok _ _ _ _ _ h
  subst hs
  have hroots : MemState.rootsOf ⟨s.managers ++ [[]]⟩ n.manager = [] := by
    rw [hman]
    simpa [MemState.fresh] using MemState.rootsOf_fresh s
  refine ⟨hp, hman, hroots, ?_⟩
  rw [ResourceManager.is_tracking, hroots]
  rfl

/-- Witness for C2 (amended) at a concrete allocation. -/
theorem C2_from_type_untracked_witness :
    Node.from_type (fun _ => 3) (fun _ => 8) (some NodeKind.paragraph) ⟨[]⟩
      = (.ok ⟨NodeKind.paragraph, 3, 0⟩, ⟨[[]]⟩)
    ∧ ((⟨NodeKind.paragraph, 3, 0⟩ : Node).pointer = 3
      ∧ (⟨NodeKind.paragraph, 3, 0⟩ : Node).manager = 0
      ∧ MemState.rootsOf ⟨[[]]⟩ 0 = []
      ∧ ResourceManager.is_tracking ⟨[[]]⟩ 0 3 = false) :=
  ⟨rfl, C2_from_type_untracked (fun _ => 3) (fun _ => 8)
    (some NodeKind.paragraph) ⟨[]⟩ ⟨NodeKind.paragraph, 3, 0⟩ ⟨[[]]⟩ rfl⟩

/-- C3: `append_child` first unlinks the child (tracking it), then calls the
engine's append primitive.  If the engine returns the success code 1, the
child's handle ends up OUT of its manager's tracked-root set and the call
returns `Ok(())`; on any other status the call fails with
`ReturnCode(status as u32)` and the child's handle ends up (and remains) IN
its manager's tracked-root set.  The `Nodup` hypothesis is the invariant the
manager maintains: `track_root` never pushes a duplicate. -/
theorem C3_append_child_tracking (append_status : Int) (self child : Node)
    (s : MemState) (hm : child.manager < s.managers.length)
    (hnd : (s.rootsOf child.manager).Nodup) :
    (append_status = 1 →
      (Node.append_child append_status self child s).1 = .ok ()
      ∧ ResourceManager.is_tracking
          (Node.append_child append_status self child s).2
          child.manager child.pointer = false)
    ∧ (append_status ≠ 1 →
      (Node.append_child append_status self child s).1
        = .error (.returnCode (u32_of_i32 append_status))
      ∧ ResourceManager.is_tracking
          (Node.append_child append_status self child s).2
          child.manager child.pointer = true) := by
  constructor
  · intro h1
    simp only [Node.append_child, Node.unlink, h1, if_true]
    exact ⟨trivial, ResourceManager.untrack_after_track s child.manager
      child.pointer hm hnd⟩
  · intro h1
    simp only [Node.append_child, Node.unlink, h1, if_false, if_neg h1]
    exact ⟨trivial, ResourceManager.is_tracking_track_root_self s child.manager
      child.pointer hm⟩

/-- Witness for C3 at a concrete success and a concrete failure status. -/
theorem C3_append_child_tracking_witness :
    ((Node.append_child 1 ⟨NodeKind.document, 1, 0⟩ ⟨NodeKind.paragraph, 2, 1⟩
        ⟨[[1], [2]]⟩).1 = .ok ()
      ∧ ResourceManager.is_tracking
          (Node.append_child 1 ⟨NodeKind.document, 1, 0⟩
            ⟨NodeKind.paragraph, 2, 1⟩ ⟨[[1], [2]]⟩).2 1 2 = false)
    ∧ ((Node.append_child 0 ⟨NodeKind.document, 1, 0⟩ ⟨NodeKind.paragraph, 2, 1⟩
        ⟨[[1], [2]]⟩).1 = .error (.returnCode (u32_of_i32 0))
      ∧ ResourceManager.is_tracking
          (Node.append_child 0 ⟨NodeKind.document, 1, 0⟩
            ⟨NodeKind.paragraph, 2, 1⟩ ⟨[[1], [2]]⟩).2 1 2 = true) :=
  ⟨(C3_append_child_tracking 1 ⟨NodeKind.document, 1, 0⟩
      ⟨NodeKind.paragraph, 2, 1⟩ ⟨[[1], [2]]⟩ (by decide) (by decide)).1 rfl,
    (C3_append_child_tracking 0 ⟨NodeKind.document, 1, 0⟩
      ⟨NodeKind.paragraph, 2, 1⟩ ⟨[[1], [2]]⟩ (by decide) (by decide)).2
      (by decide)⟩

/-- C4: immediately after `parse_document` the returned root's handle is a
member of its (fresh) manager's tracked-root set; and after `unlink()` a
node's handle is a member of its own (live) manager's tracked-root set. -/
theorem C4_tracking_after_parse_and_unlink (parse : List Nat → Nat)
    (buffer : List Nat) (s : MemState) (node : Node) (s2 : MemState)
    (hm : node.manager < s2.managers.length) :
    ResourceManager.is_tracking (parse_document parse buffer s).2
      (parse_document parse buffer s).1.manager
      (parse_document parse buffer s).1.pointer = true
    ∧ ResourceManager.is_tracking (Node.unlink node s2)
      node.manager node.pointer = true := by
  constructor
  · simp only [parse_document]
    exact ResourceManager.is_tracking_track_root_self _ _ _
      (by simp [MemState.fresh])
  · exact ResourceManager.is_tracking_track_root_self s2 node.manager
      node.pointer hm

/-- Witness for C4 at a concrete parse and a concrete unlink. -/
theorem C4_tracking_witness :
    ResourceManager.is_tracking (parse_document (fun _ => 1) [] ⟨[]⟩).2
      (parse_document (fun _ => 1) [] ⟨[]⟩).1.manager
      (parse_document (fun _ => 1) [] ⟨[]⟩).1.pointer = true
    ∧ ResourceManager.is_tracking
        (Node.unlink ⟨NodeKind.paragraph, 2, 0⟩ ⟨[[1]]⟩) 0 2 = true :=
  C4_tracking_after_parse_and_unlink (fun _ => 1) [] ⟨[]⟩
    ⟨NodeKind.paragraph, 2, 0⟩ ⟨[[1]]⟩ (by decide)

/-- C5: code bug, evaluated at a concrete failing input.  `itself()` does
produce a handle-equal Node, but it builds it through `from_raw`, which
allocates a brand-new Resource Manager (here manager 1), contradicting both
the claim and the method's own doc comment ("The returned `Node` will share
the underlying memory resource and manager of the current Node"). -/
theorem C5_itself_fresh_manager_eval :
    Node.itself (fun _ => 1) ⟨NodeKind.document, 1, 0⟩ ⟨[[1]]⟩
      = (.ok ⟨NodeKind.document, 1, 1⟩, ⟨[[1], []]⟩)
    ∧ Node.eq_impl ⟨NodeKind.document, 1, 1⟩ ⟨NodeKind.document, 1, 0⟩ = true
    ∧ (⟨NodeKind.document, 1, 1⟩ : Node).manager
        ≠ (⟨NodeKind.document, 1, 0⟩ : Node).manager :=
  ⟨rfl, rfl, by decide⟩

/-- C6: the iterator's advance step ends the sequence (yields `none`) exactly
when the engine's event code classifies as a terminal event (`Done`/`None`),
when the event code does not classify at all, or when wrapping the current
node via `from_raw` fails (the logged, silently-swallowed case); and every
yielded pair carries an `Enter` or `Exit` event. -/
theorem C6_iterator_next_terminal (code iter_node : Nat) (getType : Nat → Nat)
    (s : MemState) :
    ((NodeIterator.next code iter_node getType s).1 = none ↔
      IterEventType.tryFrom code = .ok .done
      ∨ IterEventType.tryFrom code = .ok IterEventType.none
      ∨ (∃ m, IterEventType.tryFrom code = .error m)
      ∨ ∃ e s', Node.from_raw getType iter_node s = (.error e, s'))
    ∧ ∀ n ev, (NodeIterator.next code iter_node getType s).1 = some (n, ev) →
        ev = .enter ∨ ev = .exit := by
  cases hev : IterEventType.tryFrom code with
  | error m =>
    constructor
    · simp [NodeIterator.next, hev]
    · intro n ev h
      simp [NodeIterator.next, hev] at h
  | ok ev =>
    cases ev with
    | done =>
      constructor
      · simp [NodeIterator.next, hev]
      · intro n ev h
        simp [NodeIterator.next, hev] at h
    | none =>
      constructor
      · simp [NodeIterator.next, hev]
      · intro n ev h
        simp [NodeIterator.next, hev] at h
    | enter =>
      cases hfr : Node.from_raw getType iter_node s with
      | mk r s2 =>
        cases r with
        | ok node =>
          constructor
          · simp [NodeIterator.next, hev, hfr]
          · intro n ev h
            simp only [NodeIterator.next, hev, hfr] at h
            simp only [Option.some.injEq, Prod.mk.injEq] at h
            exact Or.inl h.2.symm
        | error e =>
          constructor
          · simp only [NodeIterator.next, hev, hfr]
            simp [hfr]
          · intro n ev h
            simp [NodeIterator.next, hev, hfr] at h
    | exit =>
      cases hfr : Node.from_raw getType iter_node s with
      | mk r s2 =>
        cases r with
        | ok node =>
          constructor
          · simp [NodeIterator.next, hev, hfr]
          · intro n ev h
            simp only [NodeIterator.next, hev, hfr] at h
            simp only [Option.some.injEq, Prod.mk.injEq] at h
            exact Or.inr h.2.symm
        | error e =>
          constructor
          · simp only [NodeIterator.next, hev, hfr]
            simp [hfr]
          · intro n ev h
            simp [NodeIterator.next, hev, hfr] at h

/-- Witness for C6: the terminal "done" code ends the sequence. -/
theorem C6_iterator_next_terminal_witness :
    (NodeIterator.next 1 7 (fun _ => 1) ⟨[]⟩).1 = none :=
  (C6_iterator_next_terminal 1 7 (fun _ => 1) ⟨[]⟩).1.mpr (Or.inl rfl)

/-- C7: for each navigation operation, a null engine handle gives the
successful absent outcome `Ok(None)` with the state untouched; a non-null
handle is wrapped via `from_raw`, whose classification failure is propagated
as the operation's error and whose success is returned as `Ok(Some _)`. -/
theorem C7_navigation_null_and_propagation (eng getType : Nat → Nat)
    (self : Node) (s : MemState) :
    (eng self.pointer = 0 →
      Node.next_sibling eng getType self s = (.ok none, s)
      ∧ Node.prev_sibling eng getType self s = (.ok none, s)
      ∧ Node.parent eng getType self s = (.ok none, s)
      ∧ Node.first_child eng getType self s = (.ok none, s)
      ∧ Node.last_child eng getType self s = (.ok none, s))
    ∧ (∀ e s', eng self.pointer ≠ 0 →
      Node.from_raw getType (eng self.pointer) s = (.error e, s') →
      (Node.next_sibling eng getType self s).1 = .error e
      ∧ (Node.prev_sibling eng getType self s).1 = .error e
      ∧ (Node.parent eng getType self s).1 = .error e
      ∧ (Node.first_child eng getType self s).1 = .error e
      ∧ (Node.last_child eng getType self s).1 = .error e)
    ∧ (∀ n s', eng self.pointer ≠ 0 →
      Node.from_raw getType (eng self.pointer) s = (.ok n, s') →
      Node.next_sibling eng getType self s = (.ok (some n), s')
      ∧ Node.prev_sibling eng getType self s = (.ok (some n), s')
      ∧ Node.parent eng getType self s = (.ok (some n), s')
      ∧ Node.first_child eng getType self s = (.ok (some n), s')
      ∧ Node.last_child eng getType self s = (.ok (some n), s')) := by
  refine ⟨?_, ?_, ?_⟩
  · intro hp
    refine ⟨?_, ?_, ?_, ?_, ?_⟩ <;>
      simp [Node.next_sibling, Node.prev_sibling, Node.parent,
        Node.first_child, Node.last_child, hp]
  · intro e s' hp hfr
    refine ⟨?_, ?_, ?_, ?_, ?_⟩ <;>
      simp [Node.next_sibling, Node.prev_sibling, Node.parent,
        Node.first_child, Node.last_child, hp, hfr]
  · intro n s' hp hfr
    refine ⟨?_, ?_, ?_, ?_, ?_⟩ <;>
      simp [Node.next_sibling, Node.prev_sibling, Node.parent,
        Node.first_child, Node.last_child, hp, hfr]

/-- Witness for C7: a null sibling handle is the absent outcome. -/
theorem C7_navigation_witness :
    Node.next_sibling (fun _ => 0) (fun _ => 1) ⟨NodeKind.document, 1, 0⟩
      ⟨[[1]]⟩ = (.ok none, ⟨[[1]]⟩) :=
  ((C7_navigation_null_and_propagation (fun _ => 0) (fun _ => 1)
    ⟨NodeKind.document, 1, 0⟩ ⟨[[1]]⟩).1 rfl).1

/-- C8: `can_append_child` is pure by construction (it threads no bookkeeping
state and calls only the engine's type getter); it returns an error exactly
when the child's engine-reported kind fails to classify through
`NodeType::try_from`; and for a `List` parent its boolean is the comparison
of the child's classified kind with `Item` — all independent of the
allowed-children tables `tables`. -/
theorem C8_can_append_child_spec (tables : NodeKind → List NodeType)
    (getType : Nat → Nat) (self child : Node) :
    ((∃ e, Node.can_append_child tables getType self child = .error e) ↔
      ∃ m, NodeType.tryFrom (getType child.pointer) = .error m)
    ∧ (self.kind = NodeKind.list →
      Node.can_append_child tables getType self child
        = Except.map (fun t => t == some NodeKind.item)
            (NodeType.tryFrom (getType child.pointer))) := by
  cases htf : NodeType.tryFrom (getType child.pointer) with
  | error m =>
    constructor
    · constructor
      · intro _
        exact ⟨m, rfl⟩
      · intro _
        exact ⟨m, by simp [Node.can_append_child, Node.get_cmark_type, htf]⟩
    · intro _
      simp [Node.can_append_child, Node.get_cmark_type, htf, Except.map]
  | ok child_type =>
    constructor
    · constructor
      · intro he
        obtain ⟨e, he⟩ := he
        simp [Node.can_append_child, Node.get_cmark_type, htf] at he
      · intro hm
        obtain ⟨m, hm⟩ := hm
        simp at hm
    · intro hk
      simp [Node.can_append_child, Node.get_cmark_type, htf, hk, Except.map]

/-- Witness for C8: a `List` parent accepts an `Item` child. -/
theorem C8_can_append_child_witness :
    Node.can_append_child (fun _ => []) (fun _ => 4) ⟨NodeKind.list, 1, 0⟩
      ⟨NodeKind.item, 2, 0⟩ = .ok true :=
  ((C8_can_append_child_spec (fun _ => []) (fun _ => 4) ⟨NodeKind.list, 1, 0⟩
    ⟨NodeKind.item, 2, 0⟩).2 rfl).trans rfl

/-- C9: two `Node` values compare equal (`PartialEq`) exactly when their
handles are identical, regardless of kind tag and regardless of which
Resource Manager wraps each of them. -/
theorem C9_eq_iff_same_pointer (k₁ k₂ : NodeKind) (p₁ p₂ m₁ m₂ : Nat) :
    Node.eq_impl ⟨k₁, p₁, m₁⟩ ⟨k₂, p₂, m₂⟩ = true ↔ p₁ = p₂ := by
  simp [Node.eq_impl]

/-- Witness for C9: handle-equal nodes with different kinds and managers. -/
theorem C9_eq_iff_same_pointer_witness :
    Node.eq_impl ⟨NodeKind.document, 7, 0⟩ ⟨NodeKind.text, 7, 3⟩ = true :=
  (C9_eq_iff_same_pointer NodeKind.document NodeKind.text 7 7 0 3).mpr rfl

/-- C10: when the engine reports no literal content (a null literal pointer),
`get_content` on `Text`, `CodeBlock` and `Code` returns the successful empty
string, never an error and never an absent outcome. -/
theorem C10_null_literal_empty_string (get_literal : Nat → Option (List Nat))
    (decode : List Nat → Option String) (self : Node)
    (h : get_literal self.pointer = none) :
    Text.get_content get_literal decode self = .ok ""
    ∧ CodeBlock.get_content get_literal decode self = .ok ""
    ∧ Code.get_content get_literal decode self = .ok "" := by
  refine ⟨?_, ?_, ?_⟩ <;>
    simp [Text.get_content, CodeBlock.get_content, Code.get_content, h]

/-- Witness for C10 at a concrete node with a null literal. -/
theorem C10_null_literal_witness :
    (fun _ : Nat => (none : Option (List Nat))) 5 = none
    ∧ Text.get_content (fun _ => none) (fun _ => none)
        ⟨NodeKind.text, 5, 0⟩ = .ok "" :=
  ⟨rfl, (C10_null_literal_empty_string (fun _ => none) (fun _ => none)
    ⟨NodeKind.text, 5, 0⟩ rfl).1⟩
